import Mathlib

/-!
# Verification of the Golf-Game physics/game-loop engine

A shallow embedding of `src/react-app/game/GameEngine.ts` (first engine
version, lines 1-2011), the real-time golf engine: shot controller,
hole-capture state machine, validity guard, hazard updater, reset and
dispose.

Modelling conventions:

* JavaScript numbers on the ordinary physics path are modelled as exact
  rationals (`ℚ`); decimal literals such as `0.05` are exact in `ℚ`.
* The validity checks of the frame loop (`isNaN`, `<` comparisons) are
  modelled over `JsNum`, an extension of `ℚ` with `NaN` and the two
  infinities following IEEE/JS comparison semantics, because those checks
  are exactly about non-finite values.
* Library calls that compute irrational functions (`Math.sqrt`,
  `Math.sin`, `Math.cos`, `Math.PI`, the camera direction returned by
  three.js) are taken as parameters of the embedded functions: the
  engine's own code is embedded exactly, the numeric kernel it calls is
  abstract.
* The cannon-es `world.step` call is abstracted as a `stepFn` parameter
  producing the ball body's post-step position/velocity; everything the
  engine itself does around it is embedded.
* Observation-only logs (`stepLog`, `impulseLog`, `forceLog`,
  `completions`, `resets`, `rafScheduled`) are appended by the embedding
  where the source performs the corresponding call
  (`world.step`, `applyImpulse`, `applyForce`, `onLevelComplete`,
  `resetBall`, `requestAnimationFrame`); they alter no behaviour and make
  the temporal claims stateable.
* Purely cosmetic scene decoration (particle effects, aiming line, power
  meter DOM updates, fade/scale of the ball mesh) is not modelled beyond
  the `ballVisible` flag; it touches no gameplay state.
-/

namespace GolfGame

/-- 3D vector over exact rationals (models `THREE.Vector3` / `CANNON.Vec3`). -/
@[ext]
structure Vec3 where
  x : ℚ
  y : ℚ
  z : ℚ
deriving Repr, DecidableEq

namespace Vec3

def zero : Vec3 := ⟨0, 0, 0⟩

def add (a b : Vec3) : Vec3 := ⟨a.x + b.x, a.y + b.y, a.z + b.z⟩

/-- `multiplyScalar` -/
def smul (c : ℚ) (a : Vec3) : Vec3 := ⟨c * a.x, c * a.y, c * a.z⟩

/-- `crossVectors` of three.js. -/
def cross (a b : Vec3) : Vec3 :=
  ⟨a.y * b.z - a.z * b.y, a.z * b.x - a.x * b.z, a.x * b.y - a.y * b.x⟩

/-- squared euclidean length; `length()` is `sqrtFn` applied to this. -/
def normSq (a : Vec3) : ℚ := a.x * a.x + a.y * a.y + a.z * a.z

/-- three.js `normalize()` = `divideScalar(length() || 1)`: a zero length
falls back to dividing by 1.  `sqrtFn` stands for `Math.sqrt`. -/
def normalize (sqrtFn : ℚ → ℚ) (a : Vec3) : Vec3 :=
  let len := sqrtFn a.normSq
  let d := if len = 0 then 1 else len
  ⟨a.x / d, a.y / d, a.z / d⟩

end Vec3

/-- A JavaScript IEEE number as seen by the validity checks: either a
finite value (exact rational) or one of the non-finite values. -/
inductive JsNum where
  | fin (q : ℚ)
  | nan
  | posInf
  | negInf
deriving Repr, DecidableEq

namespace JsNum

/-- `isNaN(x)` -/
def isNaN : JsNum → Bool
  | nan => true
  | _ => false

def isFinite : JsNum → Bool
  | fin _ => true
  | _ => false

/-- JS `<`: any comparison with NaN is false; infinities compare as
expected. -/
def lt : JsNum → JsNum → Bool
  | fin a, fin b => a < b
  | fin _, posInf => true
  | negInf, fin _ => true
  | negInf, posInf => true
  | _, _ => false

/-- JS `>` is `lt` flipped. -/
def gt (a b : JsNum) : Bool := lt b a

/-- JS multiplication on possibly non-finite values. -/
def mul : JsNum → JsNum → JsNum
  | fin a, fin b => fin (a * b)
  | fin a, posInf => if 0 < a then posInf else if a < 0 then negInf else nan
  | fin a, negInf => if 0 < a then negInf else if a < 0 then posInf else nan
  | posInf, fin b => if 0 < b then posInf else if b < 0 then negInf else nan
  | negInf, fin b => if 0 < b then negInf else if b < 0 then posInf else nan
  | posInf, posInf => posInf
  | posInf, negInf => negInf
  | negInf, posInf => negInf
  | negInf, negInf => posInf
  | nan, _ => nan
  | _, nan => nan

/-- JS addition on possibly non-finite values. -/
def add : JsNum → JsNum → JsNum
  | fin a, fin b => fin (a + b)
  | fin _, posInf => posInf
  | fin _, negInf => negInf
  | posInf, fin _ => posInf
  | negInf, fin _ => negInf
  | posInf, posInf => posInf
  | posInf, negInf => nan
  | negInf, posInf => nan
  | negInf, negInf => posInf
  | nan, _ => nan
  | _, nan => nan

/-- `Math.sqrt`: NaN on negative input, `sqrtFn` stands for the finite
nonnegative case. -/
def sqrt (sqrtFn : ℚ → ℚ) : JsNum → JsNum
  | fin q => if q < 0 then nan else fin (sqrtFn q)
  | posInf => posInf
  | negInf => nan
  | nan => nan

end JsNum

/-- The ball body position as the frame-loop validity checks read it. -/
structure JsVec3 where
  x : JsNum
  y : JsNum
  z : JsNum
deriving Repr, DecidableEq

/-- Inject the rational-valued position into the checked representation. -/
def Vec3.toJs (a : Vec3) : JsVec3 := ⟨.fin a.x, .fin a.y, .fin a.z⟩

/-- Line 1590: `isNaN(position.x) || isNaN(position.y) || isNaN(position.z)`
(the `!this.ballBody` disjunct cannot hold once the ball is set up). -/
def posCorrupted (p : JsVec3) : Bool :=
  p.x.isNaN || p.y.isNaN || p.z.isNaN

/-- Lines 1616-1645: the per-level out-of-bounds switch.  `sqrtFn` stands
for `Math.sqrt` in the radial levels 2/5. -/
def outOfBounds (sqrtFn : ℚ → ℚ) (level : ℕ) (p : JsVec3) : Bool :=
  if level = 1 then
    p.x.gt (.fin 10.5) || p.x.lt (.fin (-10.5)) ||
    p.z.gt (.fin 15.5) || p.z.lt (.fin (-15.5)) || p.y.lt (.fin (-5))
  else if level = 2 then
    let distanceFromCenter := JsNum.sqrt sqrtFn ((p.x.mul p.x).add (p.z.mul p.z))
    distanceFromCenter.gt (.fin 19) || p.y.lt (.fin (-5))
  else if level = 3 then
    p.x.gt (.fin 15.5) || p.x.lt (.fin (-15.5)) ||
    p.z.gt (.fin 20.5) || p.z.lt (.fin (-20.5)) || p.y.lt (.fin (-5))
  else if level = 4 then
    p.x.gt (.fin 12.5) || p.x.lt (.fin (-12.5)) ||
    p.z.gt (.fin 17.5) || p.z.lt (.fin (-17.5)) || p.y.lt (.fin (-5))
  else if level = 5 then
    let distanceFromCenter := JsNum.sqrt sqrtFn ((p.x.mul p.x).add (p.z.mul p.z))
    distanceFromCenter.gt (.fin 19) || p.y.lt (.fin (-5))
  else
    false

/-- Which of the three early-return validity checks of `animate`
(lines 1589-1651) fires, in source order: ball-body corruption, fell
through the floor (`y < -10`, skipped while `ballInHole`), per-level out
of bounds (also skipped while `ballInHole`). -/
inductive ResetReason where
  | corrupted
  | fellThroughFloor
  | outside
deriving Repr, DecidableEq

def validityResetReason (sqrtFn : ℚ → ℚ) (level : ℕ) (ballInHole : Bool)
    (p : JsVec3) : Option ResetReason :=
  if posCorrupted p then some .corrupted
  else if p.y.lt (.fin (-10)) && !ballInHole then some .fellThroughFloor
  else if outOfBounds sqrtFn level p && !ballInHole then some .outside
  else none

/-- One entry of `this.movingBlocks` (line 64): the kinematic hazard's
visual mesh, physics body, and scripted-path parameters.  `meshPos` /
`bodyPos` stand for `mesh.position` / `body.position`; `meshId` /
`bodyId` identify the two objects in the scene / world for the resource
model. -/
@[ext]
structure MovingBlock where
  meshId : ℕ
  bodyId : ℕ
  meshPos : Vec3
  bodyPos : Vec3
  startPos : Vec3
  direction : Vec3
  speed : ℚ
  range : ℚ
deriving Repr, DecidableEq

/-- The mutable state of a `GameEngine` instance (fields of the class that
the verified operations read or write), plus observation-only logs. -/
@[ext]
structure EngineState where
  level : ℕ                       -- `currentLevel`
  strokes : ℕ
  hasCallback : Bool              -- whether `onLevelComplete` was supplied
  ballPos : Vec3                  -- `ballBody.position`
  ballVel : Vec3                  -- `ballBody.velocity`
  ballAngVel : Vec3               -- `ballBody.angularVelocity`
  meshPos : Vec3                  -- `ball.position` (visual mesh)
  ballVisible : Bool
  ballStartPos : Vec3
  holePos : Vec3                  -- `holeBody.position`
  ballInHole : Bool
  holeCompletedTriggered : Bool
  isAiming : Bool
  aimStart : ℚ × ℚ
  aimCurrent : ℚ × ℚ
  isPanning : Bool
  panStart : ℚ × ℚ
  cameraAngleY : ℚ
  firstPersonDistance : ℚ
  movingBlocks : List MovingBlock
  -- resource model
  worldBodies : List ℕ            -- ids of bodies present in the physics world
  sceneMeshes : List ℕ            -- ids of objects present in the render scene
  treeIds : List ℕ                -- ids of the background-tree groups (`trees`)
  listenersAttached : Bool        -- canvas/window event listeners registered
  rendererDisposed : Bool
  -- observation-only logs (see module comment)
  stepLog : List ℚ                -- the dt values passed to `world.step`
  impulseLog : List Vec3          -- arguments of `ballBody.applyImpulse`
  forceLog : List Vec3            -- arguments of `ballBody.applyForce`
  completions : List (ℕ × ℕ)      -- `onLevelComplete(level, strokes)` calls
  resets : ℕ                      -- number of `resetBall` executions
  rafScheduled : ℕ                -- number of `requestAnimationFrame` calls
deriving Repr, DecidableEq

/-- `resetBall()` (lines 1541-1554).  The cosmetic scale/opacity writes are
not modelled; `ball.visible = true` is. -/
def resetBall (st : EngineState) : EngineState :=
  { st with
    ballPos := st.ballStartPos
    ballVel := Vec3.zero
    ballAngVel := Vec3.zero
    meshPos := st.ballStartPos
    ballVisible := true
    ballInHole := false
    holeCompletedTriggered := false
    strokes := 0
    resets := st.resets + 1 }

/-- `onHoleCompleted()` (lines 1800-1808): the single-shot completion
latch.  An `onLevelComplete(currentLevel, strokes)` call is recorded in
`completions`. -/
def onHoleCompleted (st : EngineState) : EngineState :=
  if st.hasCallback && st.ballInHole && !st.holeCompletedTriggered then
    { st with
      holeCompletedTriggered := true
      completions := st.completions ++ [(st.level, st.strokes)] }
  else st

/-- `shoot()` (lines 1482-1526).  `sqrtFn` stands for `Math.sqrt`
(used by `length()` and `normalize()`); `camDir` is the vector written by
`camera.getWorldDirection`, which three.js computes from the camera pose.
The ball mass is 1 (line 1269), so `applyImpulse` adds the impulse to the
velocity unscaled; the `ballScreenPos` computed at lines 1492-1494 is
never read afterwards and is omitted. -/
def shoot (sqrtFn : ℚ → ℚ) (camDir : Vec3) (st : EngineState) : EngineState :=
  let aimVector : ℚ × ℚ := (st.aimCurrent.1 - st.aimStart.1, st.aimCurrent.2 - st.aimStart.2)
  let aimDistance := sqrtFn (aimVector.1 * aimVector.1 + aimVector.2 * aimVector.2)
  if aimDistance > 0.05 then
    let maxPower : ℚ := 35
    let power := min (aimDistance * maxPower * 1.5) maxPower
    let direction : Vec3 := ⟨-aimVector.1, 0, aimVector.2⟩
    let cameraDirection := Vec3.normalize sqrtFn ⟨camDir.x, 0, camDir.z⟩
    let rightVector := Vec3.cross cameraDirection ⟨0, 1, 0⟩
    let worldDirection0 :=
      (Vec3.smul direction.x rightVector).add (Vec3.smul (-direction.z) cameraDirection)
    let worldDirection := Vec3.normalize sqrtFn worldDirection0
    let impulse := Vec3.smul power worldDirection
    let applied : Vec3 := ⟨impulse.x, 0, impulse.z⟩
    { st with
      ballVel := st.ballVel.add applied
      impulseLog := st.impulseLog ++ [applied]
      strokes := st.strokes + 1 }
  else st

/-- The canvas-rectangle fields used to normalize mouse coordinates. -/
structure Rect where
  left : ℚ
  top : ℚ
  width : ℚ
  height : ℚ
deriving Repr, DecidableEq

/-- Lines 1298-1300 (and 1317-1319): client coordinates to normalized
[-1,1] canvas coordinates. -/
def toNormalized (rect : Rect) (clientX clientY : ℚ) : ℚ × ℚ :=
  (((clientX - rect.left) / rect.width) * 2 - 1,
   -((clientY - rect.top) / rect.height) * 2 + 1)

/-- `onMouseDown` (lines 1297-1313).  Aiming begins only when
`ballBody.velocity.length() < 0.5`. -/
def onMouseDown (sqrtFn : ℚ → ℚ) (rect : Rect) (clientX clientY : ℚ)
    (button : ℕ) (st : EngineState) : EngineState :=
  let n := toNormalized rect clientX clientY
  if button = 0 then
    if sqrtFn st.ballVel.normSq < 0.5 then
      { st with isAiming := true, aimStart := n, aimCurrent := n }
    else st
  else if button = 2 then
    { st with isPanning := true, panStart := (clientX, clientY) }
  else st

/-- `onMouseMove` (lines 1315-1333).  The aiming-line / power-meter UI
updates are cosmetic and not modelled. `buttonsPressed` is
`event.buttons`. -/
def onMouseMove (rect : Rect) (clientX clientY : ℚ) (buttonsPressed : ℕ)
    (st : EngineState) : EngineState :=
  if st.isAiming then
    { st with aimCurrent := toNormalized rect clientX clientY }
  else if st.isPanning && buttonsPressed = 2 then
    { st with
      cameraAngleY := st.cameraAngleY - (clientX - st.panStart.1) * 0.01
      panStart := (clientX, clientY) }
  else st

/-- `onMouseUp` (lines 1335-1343). -/
def onMouseUp (sqrtFn : ℚ → ℚ) (camDir : Vec3) (button : ℕ)
    (st : EngineState) : EngineState :=
  if button = 0 && st.isAiming then
    let st1 := shoot sqrtFn camDir st
    { st1 with isAiming := false }
  else if button = 2 then
    { st with isPanning := false }
  else st

/-- The "ball entered hole" condition of line 1670:
`isNearHole && isAtGroundLevel && distanceToHole < holeRadius`, with the
quantities of lines 1655-1666 (`ballSpeed`/`isSlowEnough` is computed by
the source but not part of this condition). -/
def holeEntryCond (sqrtFn : ℚ → ℚ) (holePos p : Vec3) : Bool :=
  let distanceToHole := sqrtFn ((p.x - holePos.x) * (p.x - holePos.x) +
      (p.z - holePos.z) * (p.z - holePos.z))
  let holeRadius : ℚ := 0.54
  let isNearHole := decide (distanceToHole < holeRadius + 0.1)
  let isAtGroundLevel := decide (p.y ≤ 0.35) && decide (p.y > -0.05)
  isNearHole && isAtGroundLevel && decide (distanceToHole < holeRadius)

/-- Lines 1654-1715: hole entry / attraction / rim interaction, evaluated
only while `!ballInHole` (the caller guards this).  cannon-es
`Vec3.scale` returns a fresh vector without mutating, so the
`angularVelocity.scale(0.1)` at line 1684 leaves the angular velocity
unchanged; particle effects are cosmetic. -/
def captureCheck (sqrtFn : ℚ → ℚ) (st : EngineState) : EngineState :=
  let holePos := st.holePos
  let p := st.ballPos
  let distanceToHole := sqrtFn ((p.x - holePos.x) * (p.x - holePos.x) +
      (p.z - holePos.z) * (p.z - holePos.z))
  let ballY := p.y
  let ballSpeed := sqrtFn st.ballVel.normSq
  let holeRadius : ℚ := 0.54
  let isNearHole := decide (distanceToHole < holeRadius + 0.1)
  let isAtGroundLevel := decide (ballY ≤ 0.35) && decide (ballY > -0.05)
  if holeEntryCond sqrtFn holePos p then
    let st1 := { st with ballInHole := true }
    let st2 := onHoleCompleted st1
    { st2 with
      ballVel := ⟨st2.ballVel.x * 0.05, min st2.ballVel.y (-2), st2.ballVel.z * 0.05⟩ }
  else if isNearHole && isAtGroundLevel &&
      decide (distanceToHole < holeRadius + 0.2) && decide (ballSpeed < 3) then
    let attractionStrength := 0.8 * (1 - distanceToHole / (holeRadius + 0.2))
    let directionX := (holePos.x - p.x) / distanceToHole
    let directionZ := (holePos.z - p.z) / distanceToHole
    { st with forceLog := st.forceLog ++
        [⟨directionX * attractionStrength, 0, directionZ * attractionStrength⟩] }
  else if decide (distanceToHole > holeRadius - 0.05) &&
      decide (distanceToHole < holeRadius + 0.08) && isAtGroundLevel then
    let rimNormalX := (p.x - holePos.x) / distanceToHole
    let rimNormalZ := (p.z - holePos.z) / distanceToHole
    { st with ballVel := ⟨st.ballVel.x + rimNormalX * 0.5,
        st.ballVel.y + 0.3, st.ballVel.z + rimNormalZ * 0.5⟩ }
  else st

/-- Lines 1718-1789: the fall-into-hole physics, run only while
`ballInHole`.  `sinF`/`cosF` stand for `Math.sin`/`Math.cos` and `nowMs`
for `Date.now()`; the dust particles and opacity/scale fade are cosmetic
and not modelled; the `angularVelocity.scale(...)` at line 1753 discards
its result (see `captureCheck`). -/
def fallingUpdate (sqrtFn sinF cosF : ℚ → ℚ) (nowMs : ℚ) (st : EngineState) : EngineState :=
  let ballPos := st.ballPos
  let holePos := st.holePos
  let ballY := ballPos.y
  let distanceToHoleCenter := sqrtFn ((ballPos.x - holePos.x) * (ballPos.x - holePos.x) +
      (ballPos.z - holePos.z) * (ballPos.z - holePos.z))
  let st1 :=
    if ballY > -0.8 then
      let spiralForce := 0.5 * (1 - ballY / (-0.8 : ℚ))
      let spiralAngle := nowMs * 0.01
      let spiralX := cosF spiralAngle * spiralForce * 0.3
      let spiralZ := sinF spiralAngle * spiralForce * 0.3
      let sta :=
        if distanceToHoleCenter > 0.03 then
          let pullForceX := ((holePos.x - ballPos.x) * 12) + spiralX
          let pullForceZ := ((holePos.z - ballPos.z) * 12) + spiralZ
          { st with forceLog := st.forceLog ++ [⟨pullForceX, 0, pullForceZ⟩] }
        else st
      let depthFactor := |ballY| / 0.8
      let downwardForce := -25 * (1 + depthFactor * 2)
      let stb := { sta with forceLog := sta.forceLog ++ [(⟨0, downwardForce, 0⟩ : Vec3)] }
      let frictionFactor := 0.96 - depthFactor * 0.1
      let stc := { stb with ballVel := ⟨stb.ballVel.x * frictionFactor,
          stb.ballVel.y, stb.ballVel.z * frictionFactor⟩ }
      if distanceToHoleCenter > 0.45 then
        let wallNormalX := (ballPos.x - holePos.x) / distanceToHoleCenter
        let wallNormalZ := (ballPos.z - holePos.z) / distanceToHoleCenter
        { stc with ballVel := ⟨stc.ballVel.x - wallNormalX * 0.2,
            stc.ballVel.y, stc.ballVel.z - wallNormalZ * 0.2⟩ }
      else stc
    else st
  if ballY < -0.6 then { st1 with ballVisible := false }
  else st1

/-- One step of the per-index `forEach` of `updateMovingBlocks`
(lines 715-736): `phase = time*speed + index*π/3`,
`offset = sin(phase)*range`, and both the visual mesh and the physics
body are moved to `startPos + direction*offset`. -/
def MovingBlock.updateAt (sinF : ℚ → ℚ) (piV time : ℚ) (index : ℕ)
    (b : MovingBlock) : MovingBlock :=
  let phase := time * b.speed + ((index : ℚ) * piV / 3)
  let offset := sinF phase * b.range
  let newPos := b.startPos.add (Vec3.smul offset b.direction)
  { b with meshPos := newPos, bodyPos := newPos }

def updateBlocksFrom (sinF : ℚ → ℚ) (piV time : ℚ) :
    ℕ → List MovingBlock → List MovingBlock
  | _, [] => []
  | i, b :: rest =>
      MovingBlock.updateAt sinF piV time i b ::
        updateBlocksFrom sinF piV time (i + 1) rest

/-- `updateMovingBlocks(deltaTime)` (lines 712-737).  `nowMs` stands for
`Date.now()`; the `deltaTime` argument is accepted, as in the source, and
never used. -/
def updateMovingBlocks (sinF : ℚ → ℚ) (piV nowMs deltaTime : ℚ)
    (blocks : List MovingBlock) : List MovingBlock :=
  let time := nowMs * 0.001
  updateBlocksFrom sinF piV time 0 blocks

/-- Lines 1581-1584 of the frame: the hazard updater runs only on
level 4. -/
def afterHazards (sinF : ℚ → ℚ) (piV nowMs clampedDt : ℚ)
    (st : EngineState) : EngineState :=
  if st.level = 4 then
    { st with movingBlocks := updateMovingBlocks sinF piV nowMs clampedDt st.movingBlocks }
  else st

/-- The start of a frame, before `world.step`: the
`requestAnimationFrame` re-scheduling (line 1574, counted in
`rafScheduled`) and the level-4 hazard update, under the clamped
timestep. -/
def preFrame (sinF : ℚ → ℚ) (piV nowMs dt : ℚ) (st : EngineState) : EngineState :=
  afterHazards sinF piV nowMs (min dt (1/30 : ℚ))
    { st with rafScheduled := st.rafScheduled + 1 }

/-- One animation frame, `animate()` (lines 1573-1796).

* `dt` is `clock.getDelta()`; `stepFn` abstracts `world.step`, yielding
  the ball body's (position, velocity, angular velocity) after the step.
* The source syncs the visual mesh between the corruption check and the
  floor/bounds checks; the embedding runs the three early-return checks
  together (`validityResetReason`): the final states coincide because
  `resetBall` overwrites the mesh position in every reset outcome.
* `updateFirstPersonCamera` and `renderer.render` mutate only the camera
  pose and the frame buffer, neither of which is part of the model. -/
def animate (sqrtFn sinF cosF : ℚ → ℚ) (piV nowMs dt : ℚ)
    (stepFn : ℚ → EngineState → Vec3 × Vec3 × Vec3)
    (st : EngineState) : EngineState :=
  let clampedDeltaTime := min dt (1/30 : ℚ)
  let st1 := preFrame sinF piV nowMs dt st
  let res := stepFn clampedDeltaTime st1
  let st2 := { st1 with
    ballPos := res.1
    ballVel := res.2.1
    ballAngVel := res.2.2
    stepLog := st1.stepLog ++ [clampedDeltaTime] }
  match validityResetReason sqrtFn st2.level st2.ballInHole st2.ballPos.toJs with
  | some _ => resetBall st2
  | none =>
      let st3 := { st2 with meshPos := st2.ballPos }
      let st4 := if !st3.ballInHole then captureCheck sqrtFn st3 else st3
      if st4.ballInHole then fallingUpdate sqrtFn sinF cosF nowMs st4 else st4

/-- The per-frame external inputs: wall clock, measured frame delta, and
the physics-step outcome for the ball. -/
structure FrameInput where
  nowMs : ℚ
  dt : ℚ
  stepFn : ℚ → EngineState → Vec3 × Vec3 × Vec3

/-- Run a sequence of animation frames. -/
def runFrames (sqrtFn sinF cosF : ℚ → ℚ) (piV : ℚ) :
    List FrameInput → EngineState → EngineState
  | [], st => st
  | f :: fs, st =>
      runFrames sqrtFn sinF cosF piV fs
        (animate sqrtFn sinF cosF piV f.nowMs f.dt f.stepFn st)

/-- `dispose()` of the first engine version (lines 1993-2010):
`renderer.dispose()`, removal of each moving block's mesh from the scene
and body from the world, clearing `movingBlocks`, removal of the
background trees from the scene, clearing `trees`.  Nothing else is
released. -/
def dispose (st : EngineState) : EngineState :=
  let blockMeshIds := st.movingBlocks.map (fun b => b.meshId)
  let blockBodyIds := st.movingBlocks.map (fun b => b.bodyId)
  { st with
    rendererDisposed := true
    sceneMeshes := (st.sceneMeshes.filter (fun m => !blockMeshIds.contains m)).filter
        (fun m => !st.treeIds.contains m)
    worldBodies := st.worldBodies.filter (fun b => !blockBodyIds.contains b)
    movingBlocks := []
    treeIds := [] }

/-- `dispose()` of the second engine version (lines 3513-3516): only
`renderer.dispose()`. -/
def disposeV2 (st : EngineState) : EngineState :=
  { st with rendererDisposed := true }

/-! ## Concrete test inputs

Stand-ins for the runtime's numeric kernel and a concrete level-1 engine
state, used by the witness and counterexample theorems.  `demoSqrt`
agrees with the exact square root on every value the concrete traces
feed it (0, 1/4 and 1). -/

def demoSqrt (q : ℚ) : ℚ := if q = 1 then 1 else if q = 1/4 then 1/2 else 0

def demoSin (_ : ℚ) : ℚ := 0

def demoCos (_ : ℚ) : ℚ := 0

/-- A rational stand-in for `Math.PI` (its value never matters to the
theorems below). -/
def demoPi : ℚ := 3.141592653589793

/-- A 2x2 canvas at the origin, so `toNormalized` maps client `(1, 1)` to
the screen centre `(0, 0)`. -/
def demoRect : Rect := ⟨0, 0, 2, 2⟩

/-- A camera looking along `-z` (`getWorldDirection` result). -/
def demoCamDir : Vec3 := ⟨0, 0, -1⟩

/-- A level-1 engine state as `init()` leaves it: ball at the level-1
start `(0, 0.3, 8)` (line 222), the hole trigger body at `(0, -0.2, -12)`
(`createHole(0, -12)` with depth 0.4, lines 285 and 1121-1123), listeners
attached, nothing fired yet.  Ids 0/1/2 stand for the ball, ground and
hole-trigger bodies the builders register; id 3 for a background tree. -/
def demoInit : EngineState where
  level := 1
  strokes := 0
  hasCallback := true
  ballPos := ⟨0, 0.3, 8⟩
  ballVel := Vec3.zero
  ballAngVel := Vec3.zero
  meshPos := ⟨0, 0.3, 8⟩
  ballVisible := true
  ballStartPos := ⟨0, 0.3, 8⟩
  holePos := ⟨0, -0.2, -12⟩
  ballInHole := false
  holeCompletedTriggered := false
  isAiming := false
  aimStart := (0, 0)
  aimCurrent := (0, 0)
  isPanning := false
  panStart := (0, 0)
  cameraAngleY := 0
  firstPersonDistance := 3.5
  movingBlocks := []
  worldBodies := [0, 1, 2]
  sceneMeshes := [0, 1, 2, 3]
  treeIds := [3]
  listenersAttached := true
  rendererDisposed := false
  stepLog := []
  impulseLog := []
  forceLog := []
  completions := []
  resets := 0
  rafScheduled := 0

/-- A physics step that rolls the ball to rest on the hole centre — the
normal successful putt, as `world.step` produces it. -/
def stepToHole : ℚ → EngineState → Vec3 × Vec3 × Vec3 :=
  fun _ _ => (⟨0, 0.2, -12⟩, Vec3.zero, Vec3.zero)

/-- A physics step after which the ball sits past the level-1 `z` bound. -/
def stepPastBound : ℚ → EngineState → Vec3 × Vec3 × Vec3 :=
  fun _ _ => (⟨0, 0.3, 16⟩, Vec3.zero, Vec3.zero)

/-- A physics step that leaves a captured ball below the fall-depth
threshold, still falling. -/
def stepDeepInHole : ℚ → EngineState → Vec3 × Vec3 × Vec3 :=
  fun _ _ => (⟨0, -1, -12⟩, ⟨0, -3, 0⟩, Vec3.zero)

/-- Event trace for the capture-state counterexample: the player presses
the mouse while the ball is at rest (aiming is accepted)... -/
def c2State1 : EngineState := onMouseDown demoSqrt demoRect 1 1 0 demoInit

/-- ...the ball is rolled into the hole by the next frame (a putt from a
previous shot arriving, or the aim being held across the capture)... -/
def c2State2 : EngineState :=
  animate demoSqrt demoSin demoCos demoPi 0 (1/60) stepToHole c2State1

/-- ...the player drags to `(0.3, 0.4)` while still holding the button... -/
def c2State3 : EngineState := onMouseMove demoRect 1.3 0.6 1 c2State2

/-- ...and releases: `shoot` runs with the ball already captured. -/
def c2State4 : EngineState := onMouseUp demoSqrt demoCamDir 0 c2State3

/-- A state mid-drag, for the shot-impulse witness. -/
def aimingState : EngineState :=
  { demoInit with isAiming := true, aimStart := (0, 0), aimCurrent := (0.3, 0.4) }

/-- A captured ball already below the fall-depth threshold. -/
def sunkState : EngineState :=
  { demoInit with ballInHole := true, ballPos := ⟨0, -1, -12⟩ }

/-! ## Helper lemmas: which fields each engine operation leaves alone -/

theorem posCorrupted_toJs (v : Vec3) : posCorrupted v.toJs = false := rfl

/-- While the ball is in the hole, no validity check can fire on a
finite position: the floor and bounds checks are guarded by
`!ballInHole` and a finite position is never NaN. -/
theorem validityResetReason_inHole (sqrtFn : ℚ → ℚ) (level : ℕ) (v : Vec3) :
    validityResetReason sqrtFn level true v.toJs = none := by
  simp [validityResetReason, posCorrupted, Vec3.toJs, JsNum.isNaN]

theorem preFrame_stepLog (sinF : ℚ → ℚ) (piV nowMs dt : ℚ) (st : EngineState) :
    (preFrame sinF piV nowMs dt st).stepLog = st.stepLog := by
  simp only [preFrame, afterHazards]; split <;> rfl

theorem preFrame_ballInHole (sinF : ℚ → ℚ) (piV nowMs dt : ℚ) (st : EngineState) :
    (preFrame sinF piV nowMs dt st).ballInHole = st.ballInHole := by
  simp only [preFrame, afterHazards]; split <;> rfl

theorem preFrame_completions (sinF : ℚ → ℚ) (piV nowMs dt : ℚ) (st : EngineState) :
    (preFrame sinF piV nowMs dt st).completions = st.completions := by
  simp only [preFrame, afterHazards]; split <;> rfl

theorem preFrame_resets (sinF : ℚ → ℚ) (piV nowMs dt : ℚ) (st : EngineState) :
    (preFrame sinF piV nowMs dt st).resets = st.resets := by
  simp only [preFrame, afterHazards]; split <;> rfl

theorem preFrame_level (sinF : ℚ → ℚ) (piV nowMs dt : ℚ) (st : EngineState) :
    (preFrame sinF piV nowMs dt st).level = st.level := by
  simp only [preFrame, afterHazards]; split <;> rfl

theorem preFrame_strokes (sinF : ℚ → ℚ) (piV nowMs dt : ℚ) (st : EngineState) :
    (preFrame sinF piV nowMs dt st).strokes = st.strokes := by
  simp only [preFrame, afterHazards]; split <;> rfl

theorem preFrame_hasCallback (sinF : ℚ → ℚ) (piV nowMs dt : ℚ) (st : EngineState) :
    (preFrame sinF piV nowMs dt st).hasCallback = st.hasCallback := by
  simp only [preFrame, afterHazards]; split <;> rfl

theorem preFrame_holeCompletedTriggered (sinF : ℚ → ℚ) (piV nowMs dt : ℚ)
    (st : EngineState) :
    (preFrame sinF piV nowMs dt st).holeCompletedTriggered = st.holeCompletedTriggered := by
  simp only [preFrame, afterHazards]; split <;> rfl

theorem preFrame_holePos (sinF : ℚ → ℚ) (piV nowMs dt : ℚ) (st : EngineState) :
    (preFrame sinF piV nowMs dt st).holePos = st.holePos := by
  simp only [preFrame, afterHazards]; split <;> rfl

theorem preFrame_ballStartPos (sinF : ℚ → ℚ) (piV nowMs dt : ℚ) (st : EngineState) :
    (preFrame sinF piV nowMs dt st).ballStartPos = st.ballStartPos := by
  simp only [preFrame, afterHazards]; split <;> rfl

theorem preFrame_forceLog (sinF : ℚ → ℚ) (piV nowMs dt : ℚ) (st : EngineState) :
    (preFrame sinF piV nowMs dt st).forceLog = st.forceLog := by
  simp only [preFrame, afterHazards]; split <;> rfl

theorem captureCheck_stepLog (sqrtFn : ℚ → ℚ) (st : EngineState) :
    (captureCheck sqrtFn st).stepLog = st.stepLog := by
  simp only [captureCheck, onHoleCompleted]; repeat' split
  all_goals rfl

theorem captureCheck_resets (sqrtFn : ℚ → ℚ) (st : EngineState) :
    (captureCheck sqrtFn st).resets = st.resets := by
  simp only [captureCheck, onHoleCompleted]; repeat' split
  all_goals rfl

theorem fallingUpdate_stepLog (sqrtFn sinF cosF : ℚ → ℚ) (nowMs : ℚ) (st : EngineState) :
    (fallingUpdate sqrtFn sinF cosF nowMs st).stepLog = st.stepLog := by
  simp only [fallingUpdate]; repeat' split
  all_goals rfl

theorem fallingUpdate_resets (sqrtFn sinF cosF : ℚ → ℚ) (nowMs : ℚ) (st : EngineState) :
    (fallingUpdate sqrtFn sinF cosF nowMs st).resets = st.resets := by
  simp only [fallingUpdate]; repeat' split
  all_goals rfl

theorem fallingUpdate_completions (sqrtFn sinF cosF : ℚ → ℚ) (nowMs : ℚ)
    (st : EngineState) :
    (fallingUpdate sqrtFn sinF cosF nowMs st).completions = st.completions := by
  simp only [fallingUpdate]; repeat' split
  all_goals rfl

theorem fallingUpdate_ballInHole (sqrtFn sinF cosF : ℚ → ℚ) (nowMs : ℚ)
    (st : EngineState) :
    (fallingUpdate sqrtFn sinF cosF nowMs st).ballInHole = st.ballInHole := by
  simp only [fallingUpdate]; repeat' split
  all_goals rfl

theorem fallingUpdate_holeCompletedTriggered (sqrtFn sinF cosF : ℚ → ℚ) (nowMs : ℚ)
    (st : EngineState) :
    (fallingUpdate sqrtFn sinF cosF nowMs st).holeCompletedTriggered
      = st.holeCompletedTriggered := by
  simp only [fallingUpdate]; repeat' split
  all_goals rfl

/-- Below the fall-depth threshold the falling block applies nothing:
the whole force/velocity section is guarded by `ballY > -0.8`, and the
only surviving effect is hiding the mesh (`ballY < -0.6`). -/
theorem fallingUpdate_deep (sqrtFn sinF cosF : ℚ → ℚ) (nowMs : ℚ) (st : EngineState)
    (h : st.ballPos.y ≤ -0.8) :
    fallingUpdate sqrtFn sinF cosF nowMs st = { st with ballVisible := false } := by
  have h1 : ¬ (st.ballPos.y > -0.8) := by linarith
  have h2 : st.ballPos.y < -0.6 := by linarith
  simp only [fallingUpdate, if_neg h1, if_pos h2]

theorem preFrame_isAiming (sinF : ℚ → ℚ) (piV nowMs dt : ℚ) (st : EngineState) :
    (preFrame sinF piV nowMs dt st).isAiming = st.isAiming := by
  simp only [preFrame, afterHazards]; split <;> rfl

theorem preFrame_aimStart (sinF : ℚ → ℚ) (piV nowMs dt : ℚ) (st : EngineState) :
    (preFrame sinF piV nowMs dt st).aimStart = st.aimStart := by
  simp only [preFrame, afterHazards]; split <;> rfl

theorem preFrame_aimCurrent (sinF : ℚ → ℚ) (piV nowMs dt : ℚ) (st : EngineState) :
    (preFrame sinF piV nowMs dt st).aimCurrent = st.aimCurrent := by
  simp only [preFrame, afterHazards]; split <;> rfl

theorem preFrame_impulseLog (sinF : ℚ → ℚ) (piV nowMs dt : ℚ) (st : EngineState) :
    (preFrame sinF piV nowMs dt st).impulseLog = st.impulseLog := by
  simp only [preFrame, afterHazards]; split <;> rfl

theorem preFrame_rafScheduled (sinF : ℚ → ℚ) (piV nowMs dt : ℚ) (st : EngineState) :
    (preFrame sinF piV nowMs dt st).rafScheduled = st.rafScheduled + 1 := by
  simp only [preFrame, afterHazards]; split <;> rfl

theorem captureCheck_isAiming (sqrtFn : ℚ → ℚ) (st : EngineState) :
    (captureCheck sqrtFn st).isAiming = st.isAiming := by
  simp only [captureCheck, onHoleCompleted]; repeat' split
  all_goals rfl

theorem captureCheck_aimStart (sqrtFn : ℚ → ℚ) (st : EngineState) :
    (captureCheck sqrtFn st).aimStart = st.aimStart := by
  simp only [captureCheck, onHoleCompleted]; repeat' split
  all_goals rfl

theorem captureCheck_aimCurrent (sqrtFn : ℚ → ℚ) (st : EngineState) :
    (captureCheck sqrtFn st).aimCurrent = st.aimCurrent := by
  simp only [captureCheck, onHoleCompleted]; repeat' split
  all_goals rfl

theorem captureCheck_impulseLog (sqrtFn : ℚ → ℚ) (st : EngineState) :
    (captureCheck sqrtFn st).impulseLog = st.impulseLog := by
  simp only [captureCheck, onHoleCompleted]; repeat' split
  all_goals rfl

theorem captureCheck_rafScheduled (sqrtFn : ℚ → ℚ) (st : EngineState) :
    (captureCheck sqrtFn st).rafScheduled = st.rafScheduled := by
  simp only [captureCheck, onHoleCompleted]; repeat' split
  all_goals rfl

theorem fallingUpdate_isAiming (sqrtFn sinF cosF : ℚ → ℚ) (nowMs : ℚ)
    (st : EngineState) :
    (fallingUpdate sqrtFn sinF cosF nowMs st).isAiming = st.isAiming := by
  simp only [fallingUpdate]; repeat' split
  all_goals rfl

theorem fallingUpdate_aimStart (sqrtFn sinF cosF : ℚ → ℚ) (nowMs : ℚ)
    (st : EngineState) :
    (fallingUpdate sqrtFn sinF cosF nowMs st).aimStart = st.aimStart := by
  simp only [fallingUpdate]; repeat' split
  all_goals rfl

theorem fallingUpdate_aimCurrent (sqrtFn sinF cosF : ℚ → ℚ) (nowMs : ℚ)
    (st : EngineState) :
    (fallingUpdate sqrtFn sinF cosF nowMs st).aimCurrent = st.aimCurrent := by
  simp only [fallingUpdate]; repeat' split
  all_goals rfl

theorem fallingUpdate_impulseLog (sqrtFn sinF cosF : ℚ → ℚ) (nowMs : ℚ)
    (st : EngineState) :
    (fallingUpdate sqrtFn sinF cosF nowMs st).impulseLog = st.impulseLog := by
  simp only [fallingUpdate]; repeat' split
  all_goals rfl

theorem fallingUpdate_rafScheduled (sqrtFn sinF cosF : ℚ → ℚ) (nowMs : ℚ)
    (st : EngineState) :
    (fallingUpdate sqrtFn sinF cosF nowMs st).rafScheduled = st.rafScheduled := by
  simp only [fallingUpdate]; repeat' split
  all_goals rfl

/-- `animate` never touches the aiming flag. -/
theorem animate_isAiming (sqrtFn sinF cosF : ℚ → ℚ) (piV nowMs dt : ℚ)
    (stepFn : ℚ → EngineState → Vec3 × Vec3 × Vec3) (st : EngineState) :
    (animate sqrtFn sinF cosF piV nowMs dt stepFn st).isAiming = st.isAiming := by
  simp only [animate]
  split
  · simp [resetBall, preFrame_isAiming]
  · split <;> split <;>
      simp [captureCheck_isAiming, fallingUpdate_isAiming, preFrame_isAiming]

theorem animate_aimStart (sqrtFn sinF cosF : ℚ → ℚ) (piV nowMs dt : ℚ)
    (stepFn : ℚ → EngineState → Vec3 × Vec3 × Vec3) (st : EngineState) :
    (animate sqrtFn sinF cosF piV nowMs dt stepFn st).aimStart = st.aimStart := by
  simp only [animate]
  split
  · simp [resetBall, preFrame_aimStart]
  · split <;> split <;>
      simp [captureCheck_aimStart, fallingUpdate_aimStart, preFrame_aimStart]

theorem animate_aimCurrent (sqrtFn sinF cosF : ℚ → ℚ) (piV nowMs dt : ℚ)
    (stepFn : ℚ → EngineState → Vec3 × Vec3 × Vec3) (st : EngineState) :
    (animate sqrtFn sinF cosF piV nowMs dt stepFn st).aimCurrent = st.aimCurrent := by
  simp only [animate]
  split
  · simp [resetBall, preFrame_aimCurrent]
  · split <;> split <;>
      simp [captureCheck_aimCurrent, fallingUpdate_aimCurrent, preFrame_aimCurrent]

/-- The frame loop never applies an impulse: impulses come only from
`shoot`. -/
theorem animate_impulseLog (sqrtFn sinF cosF : ℚ → ℚ) (piV nowMs dt : ℚ)
    (stepFn : ℚ → EngineState → Vec3 × Vec3 × Vec3) (st : EngineState) :
    (animate sqrtFn sinF cosF piV nowMs dt stepFn st).impulseLog = st.impulseLog := by
  simp only [animate]
  split
  · simp [resetBall, preFrame_impulseLog]
  · split <;> split <;>
      simp [captureCheck_impulseLog, fallingUpdate_impulseLog, preFrame_impulseLog]

/-- Every `animate` call unconditionally schedules the next
animation-frame callback (line 1574), whatever the state — including a
disposed one. -/
theorem animate_rafScheduled (sqrtFn sinF cosF : ℚ → ℚ) (piV nowMs dt : ℚ)
    (stepFn : ℚ → EngineState → Vec3 × Vec3 × Vec3) (st : EngineState) :
    (animate sqrtFn sinF cosF piV nowMs dt stepFn st).rafScheduled
      = st.rafScheduled + 1 := by
  simp only [animate]
  split
  · simp [resetBall, preFrame_rafScheduled]
  · split <;> split <;>
      simp [captureCheck_rafScheduled, fallingUpdate_rafScheduled, preFrame_rafScheduled]

/-- The hole-entry branch of `captureCheck` invokes the completion
callback with the current level and stroke count. -/
theorem captureCheck_entry_completions (sqrtFn : ℚ → ℚ) (st : EngineState)
    (hcb : st.hasCallback = true) (hlatch : st.holeCompletedTriggered = false)
    (hentry : holeEntryCond sqrtFn st.holePos st.ballPos = true) :
    (captureCheck sqrtFn st).completions = st.completions ++ [(st.level, st.strokes)] := by
  simp [captureCheck, onHoleCompleted, hentry, hcb, hlatch]

theorem captureCheck_entry_ballInHole (sqrtFn : ℚ → ℚ) (st : EngineState)
    (hentry : holeEntryCond sqrtFn st.holePos st.ballPos = true) :
    (captureCheck sqrtFn st).ballInHole = true := by
  simp only [captureCheck, onHoleCompleted, hentry, if_true]
  split <;> rfl

theorem captureCheck_entry_triggered (sqrtFn : ℚ → ℚ) (st : EngineState)
    (hcb : st.hasCallback = true) (hlatch : st.holeCompletedTriggered = false)
    (hentry : holeEntryCond sqrtFn st.holePos st.ballPos = true) :
    (captureCheck sqrtFn st).holeCompletedTriggered = true := by
  simp [captureCheck, onHoleCompleted, hentry, hcb, hlatch]

/-- While the ball is captured, a frame keeps it captured, reports no new
completion, and performs no reset: the corruption check cannot fire on a
finite position, the floor and bounds checks are disabled by
`ballInHole`, the capture evaluation is skipped, and the falling physics
touches neither flag nor log. -/
theorem animate_inHole (sqrtFn sinF cosF : ℚ → ℚ) (piV nowMs dt : ℚ)
    (stepFn : ℚ → EngineState → Vec3 × Vec3 × Vec3) (st : EngineState)
    (hb : st.ballInHole = true) :
    (animate sqrtFn sinF cosF piV nowMs dt stepFn st).ballInHole = true
    ∧ (animate sqrtFn sinF cosF piV nowMs dt stepFn st).completions = st.completions
    ∧ (animate sqrtFn sinF cosF piV nowMs dt stepFn st).resets = st.resets := by
  simp only [animate]
  have hb2 : (preFrame sinF piV nowMs dt st).ballInHole = true := by
    rw [preFrame_ballInHole, hb]
  simp [hb2, validityResetReason_inHole, fallingUpdate_ballInHole,
    fallingUpdate_completions, fallingUpdate_resets, preFrame_completions,
    preFrame_resets]

/-- `animate_inHole` over any whole sequence of frames. -/
theorem runFrames_inHole (sqrtFn sinF cosF : ℚ → ℚ) (piV : ℚ)
    (fs : List FrameInput) (st : EngineState) (hb : st.ballInHole = true) :
    (runFrames sqrtFn sinF cosF piV fs st).ballInHole = true
    ∧ (runFrames sqrtFn sinF cosF piV fs st).completions = st.completions
    ∧ (runFrames sqrtFn sinF cosF piV fs st).resets = st.resets := by
  induction fs generalizing st with
  | nil => exact ⟨hb, rfl, rfl⟩
  | cons f fs ih =>
      obtain ⟨h1, h2, h3⟩ := animate_inHole sqrtFn sinF cosF piV f.nowMs f.dt f.stepFn st hb
      obtain ⟨g1, g2, g3⟩ := ih _ h1
      exact ⟨g1, g2.trans h2, g3.trans h3⟩

/-- `updateBlocksFrom` maps entry `i` through `updateAt` at index
`k + i`. -/
theorem updateBlocksFrom_get (sinF : ℚ → ℚ) (piV t : ℚ) (k : ℕ)
    (blocks : List MovingBlock) (i : ℕ) :
    (updateBlocksFrom sinF piV t k blocks).get? i
      = (blocks.get? i).map (MovingBlock.updateAt sinF piV t (k + i)) := by
  induction blocks generalizing k i with
  | nil => simp [updateBlocksFrom]
  | cons b rest ih =>
      cases i with
      | zero => simp [updateBlocksFrom]
      | succ n =>
          simp only [updateBlocksFrom, List.get?]
          rw [ih (k + 1) n, show k + 1 + n = k + (n + 1) by omega]

/-! ### Evaluation of the captured-shot event trace -/

theorem c2state1_eq : c2State1
    = { demoInit with isAiming := true, aimStart := (0, 0), aimCurrent := (0, 0) } := by
  norm_num [c2State1, onMouseDown, toNormalized, demoRect, demoSqrt, demoInit,
    Vec3.normSq, Vec3.zero]

theorem c2state2_ballInHole : c2State2.ballInHole = true := by
  rw [c2State2, c2state1_eq]
  have hstep : stepToHole (min (1/60 : ℚ) (1/30 : ℚ))
      (preFrame demoSin demoPi 0 (1/60)
        { demoInit with isAiming := true, aimStart := (0, 0), aimCurrent := (0, 0) })
      = (⟨0, 0.2, -12⟩, Vec3.zero, Vec3.zero) := rfl
  simp only [animate, hstep]
  have hval : validityResetReason demoSqrt 1 false (Vec3.toJs ⟨0, 0.2, -12⟩) = none := by
    norm_num [validityResetReason, posCorrupted, outOfBounds, Vec3.toJs, JsNum.lt,
      JsNum.gt, JsNum.isNaN]
  have hentry : holeEntryCond demoSqrt (⟨0, -0.2, -12⟩ : Vec3) ⟨0, 0.2, -12⟩ = true := by
    norm_num [holeEntryCond, demoSqrt]
  simp [preFrame_ballInHole, preFrame_level, hval, hentry, demoInit,
    preFrame_holePos, captureCheck_entry_ballInHole, fallingUpdate_ballInHole]

theorem c2state3_ballInHole : c2State3.ballInHole = true := by
  simp only [c2State3, onMouseMove]
  repeat' split
  all_goals exact c2state2_ballInHole

theorem c2state2_isAiming : c2State2.isAiming = true := by
  rw [c2State2, animate_isAiming, c2state1_eq]

theorem c2state3_isAiming : c2State3.isAiming = true := by
  simp only [c2State3, onMouseMove]
  repeat' split
  all_goals exact c2state2_isAiming

theorem c2state3_aimStart : c2State3.aimStart = (0, 0) := by
  simp only [c2State3, onMouseMove, c2state2_isAiming, if_pos]
  rw [c2State2, animate_aimStart, c2state1_eq]

theorem c2state3_aimCurrent : c2State3.aimCurrent = (0.3, 0.4) := by
  simp only [c2State3, onMouseMove, c2state2_isAiming, if_pos]
  norm_num [toNormalized, demoRect]

/-! ## The claims -/

/-- C1.  The level-completion callback fires exactly once per successful
attempt: in the frame whose post-step ball position satisfies the hole
entry condition (the `Free → Capturing` event), `onLevelComplete` is
invoked exactly once, with the current level id and stroke count, and
the latch is set; afterwards, however many frames run and however long
the capture-condition predicate keeps holding, no further completion is
ever reported until an explicit reset clears the latch. -/
theorem capture_completion_callback_exactly_once
    (sqrtFn sinF cosF : ℚ → ℚ) (piV nowMs dt : ℚ)
    (stepFn : ℚ → EngineState → Vec3 × Vec3 × Vec3) (st : EngineState)
    (p v av : Vec3)
    (hcb : st.hasCallback = true)
    (hfree : st.ballInHole = false)
    (hlatch : st.holeCompletedTriggered = false)
    (hstep : stepFn (min dt (1/30 : ℚ)) (preFrame sinF piV nowMs dt st) = (p, v, av))
    (hval : validityResetReason sqrtFn st.level false p.toJs = none)
    (hentry : holeEntryCond sqrtFn st.holePos p = true) :
    ((animate sqrtFn sinF cosF piV nowMs dt stepFn st).completions
        = st.completions ++ [(st.level, st.strokes)]
      ∧ (animate sqrtFn sinF cosF piV nowMs dt stepFn st).ballInHole = true
      ∧ (animate sqrtFn sinF cosF piV nowMs dt stepFn st).holeCompletedTriggered = true)
    ∧ ∀ fs : List FrameInput,
        (runFrames sqrtFn sinF cosF piV fs
            (animate sqrtFn sinF cosF piV nowMs dt stepFn st)).completions
          = st.completions ++ [(st.level, st.strokes)] := by
  have hmain :
      (animate sqrtFn sinF cosF piV nowMs dt stepFn st).completions
        = st.completions ++ [(st.level, st.strokes)]
      ∧ (animate sqrtFn sinF cosF piV nowMs dt stepFn st).ballInHole = true
      ∧ (animate sqrtFn sinF cosF piV nowMs dt stepFn st).holeCompletedTriggered = true := by
    simp only [animate, hstep]
    simp [preFrame_ballInHole, preFrame_level, hfree, hval, hentry, hcb, hlatch,
      preFrame_hasCallback, preFrame_holeCompletedTriggered, preFrame_holePos,
      captureCheck_entry_completions, captureCheck_entry_ballInHole,
      captureCheck_entry_triggered, fallingUpdate_completions,
      fallingUpdate_ballInHole, fallingUpdate_holeCompletedTriggered,
      preFrame_completions, preFrame_strokes]
  refine ⟨hmain, fun fs => ?_⟩
  obtain ⟨-, h2, -⟩ := runFrames_inHole sqrtFn sinF cosF piV fs _ hmain.2.1
  exact h2.trans hmain.1

/-- Witness for C1 at the concrete level-1 state: the ball rolls onto the
hole centre, one completion `(1, 0)` is reported, and it stays the only
one over three further frames. -/
theorem capture_completion_callback_exactly_once_witness :
    ((animate demoSqrt demoSin demoCos demoPi 0 (1/60) stepToHole demoInit).completions
        = demoInit.completions ++ [(demoInit.level, demoInit.strokes)]
      ∧ (animate demoSqrt demoSin demoCos demoPi 0 (1/60) stepToHole demoInit).ballInHole = true
      ∧ (animate demoSqrt demoSin demoCos demoPi 0 (1/60) stepToHole
          demoInit).holeCompletedTriggered = true)
    ∧ (runFrames demoSqrt demoSin demoCos demoPi
        [⟨0, 1/60, stepToHole⟩, ⟨16, 1/60, stepToHole⟩, ⟨33, 1/60, stepToHole⟩]
        (animate demoSqrt demoSin demoCos demoPi 0 (1/60) stepToHole demoInit)).completions
      = demoInit.completions ++ [(demoInit.level, demoInit.strokes)] := by
  obtain ⟨h1, h2⟩ := capture_completion_callback_exactly_once
    demoSqrt demoSin demoCos demoPi 0 (1/60) stepToHole demoInit
    ⟨0, 0.2, -12⟩ Vec3.zero Vec3.zero rfl rfl rfl rfl
    (by norm_num [validityResetReason, posCorrupted, outOfBounds, Vec3.toJs,
      JsNum.lt, JsNum.gt, JsNum.isNaN, demoInit])
    (by norm_num [holeEntryCond, demoSqrt, demoInit])
  exact ⟨h1, h2 _⟩

/-- C4.  `shoot()` on a drag release: a drag whose computed magnitude is
at most 0.05 cancels the shot (state unchanged: no stroke, velocity
untouched); otherwise the power is `min(d * 35 * 1.5, 35)`, hence within
`(0, 35]`, exactly one impulse with zero vertical component is applied,
and the stroke count increments by exactly 1. -/
theorem shot_release_power_and_threshold (sqrtFn : ℚ → ℚ) (camDir : Vec3)
    (st : EngineState) :
    let ax := st.aimCurrent.1 - st.aimStart.1
    let ay := st.aimCurrent.2 - st.aimStart.2
    let d := sqrtFn (ax * ax + ay * ay)
    (d ≤ 0.05 → shoot sqrtFn camDir st = st)
    ∧ (0.05 < d →
        let power := min (d * 35 * 1.5) 35
        let cd := Vec3.normalize sqrtFn ⟨camDir.x, 0, camDir.z⟩
        let wd := Vec3.normalize sqrtFn
          ((Vec3.smul (-ax) (Vec3.cross cd ⟨0, 1, 0⟩)).add (Vec3.smul (-ay) cd))
        0 < power ∧ power ≤ 35
        ∧ (shoot sqrtFn camDir st).strokes = st.strokes + 1
        ∧ (shoot sqrtFn camDir st).impulseLog
            = st.impulseLog ++ [⟨power * wd.x, 0, power * wd.z⟩]
        ∧ (shoot sqrtFn camDir st).ballVel.y = st.ballVel.y) := by
  refine ⟨fun h => ?_, fun h => ?_⟩
  · simp only [shoot, if_neg (not_lt.mpr h)]
  · refine ⟨lt_min (by nlinarith) (by norm_num), min_le_right _ _, ?_, ?_, ?_⟩ <;>
      simp [shoot, if_pos h, Vec3.add, Vec3.smul]

/-- Witness for C4 at a concrete drag from `(0,0)` to `(0.3, 0.4)`
(magnitude 0.5): one stroke, vertical velocity unchanged. -/
theorem shot_release_power_and_threshold_witness :
    (shoot demoSqrt demoCamDir aimingState).strokes = aimingState.strokes + 1
    ∧ (shoot demoSqrt demoCamDir aimingState).ballVel.y = aimingState.ballVel.y := by
  have h := (shot_release_power_and_threshold demoSqrt demoCamDir aimingState).2
    (by norm_num [demoSqrt, aimingState, demoInit])
  exact ⟨h.2.2.1, h.2.2.2.2⟩

/-- C5.  `resetBall()` restores every invariant: stroke count 0, ball
body and mesh exactly at `ballStart`, linear and angular velocities
zero, capture state `Free` (`ballInHole = false`) and the completion
latch cleared. -/
theorem reset_restores_invariants (st : EngineState) :
    (resetBall st).strokes = 0
    ∧ (resetBall st).ballPos = st.ballStartPos
    ∧ (resetBall st).meshPos = st.ballStartPos
    ∧ (resetBall st).ballVel = Vec3.zero
    ∧ (resetBall st).ballAngVel = Vec3.zero
    ∧ (resetBall st).ballInHole = false
    ∧ (resetBall st).holeCompletedTriggered = false :=
  ⟨rfl, rfl, rfl, rfl, rfl, rfl, rfl⟩

/-- C6.  The hazard updater is a pure function of the wall-clock time:
its result is independent of the `deltaTime` argument, and hazard `i` has
both its physics body and its visual mesh placed at exactly
`startPos + direction * (range * sin(t * speed + i * (π/3)))`, with
`t = nowMs * 0.001` the elapsed time in seconds. -/
theorem hazard_position_deterministic (sinF : ℚ → ℚ) (piV nowMs dt dt2 : ℚ)
    (blocks : List MovingBlock) (i : ℕ) :
    updateMovingBlocks sinF piV nowMs dt blocks
      = updateMovingBlocks sinF piV nowMs dt2 blocks
    ∧ (updateMovingBlocks sinF piV nowMs dt blocks).get? i
      = (blocks.get? i).map (fun b =>
          let pos := b.startPos.add
            (Vec3.smul (b.range * sinF ((nowMs * 0.001) * b.speed + (i : ℚ) * (piV / 3)))
              b.direction)
          { b with meshPos := pos, bodyPos := pos }) := by
  refine ⟨rfl, ?_⟩
  rw [updateMovingBlocks, updateBlocksFrom_get]
  cases h : blocks.get? i with
  | none => rfl
  | some b =>
      have harg : nowMs * 0.001 * b.speed + (i : ℚ) * piV / 3
          = nowMs * 0.001 * b.speed + (i : ℚ) * (piV / 3) := by ring
      simp [MovingBlock.updateAt, harg, mul_comm]
      rw [show piV * (i : ℚ) / 3 = (i : ℚ) * (piV / 3) by ring]

/-- C7.  Level-1 bounds: a post-step ball position whose horizontal
component is beyond the rectangular bound `[-10.5,10.5]×[-15.5,15.5]` —
here `(0, 0.3, 16)`, with `z > 15.5` — is classified out of bounds and
the frame performs a full ball reset; a position strictly inside the
level-1 boundary test is not classified out of bounds. -/
theorem level1_bounds_classify_and_reset (sqrtFn sinF cosF : ℚ → ℚ) (piV nowMs dt : ℚ)
    (stepFn : ℚ → EngineState → Vec3 × Vec3 × Vec3) (st : EngineState)
    (v av : Vec3)
    (hlvl : st.level = 1) (hfree : st.ballInHole = false)
    (hstep : stepFn (min dt (1/30 : ℚ)) (preFrame sinF piV nowMs dt st)
      = (⟨0, 0.3, 16⟩, v, av)) :
    outOfBounds sqrtFn 1 (Vec3.toJs ⟨0, 0.3, 16⟩) = true
    ∧ (animate sqrtFn sinF cosF piV nowMs dt stepFn st).resets = st.resets + 1
    ∧ (animate sqrtFn sinF cosF piV nowMs dt stepFn st).ballPos = st.ballStartPos
    ∧ (animate sqrtFn sinF cosF piV nowMs dt stepFn st).strokes = 0
    ∧ (∀ p : Vec3, -10.5 < p.x → p.x < 10.5 → -15.5 < p.z → p.z < 15.5 → -5 ≤ p.y →
        outOfBounds sqrtFn 1 p.toJs = false) := by
  have hoob : outOfBounds sqrtFn 1 (Vec3.toJs ⟨0, 0.3, 16⟩) = true := by
    norm_num [outOfBounds, Vec3.toJs, JsNum.lt, JsNum.gt]
  have hval : validityResetReason sqrtFn 1 false (Vec3.toJs ⟨0, 0.3, 16⟩)
      = some .outside := by
    norm_num [validityResetReason, posCorrupted, outOfBounds, Vec3.toJs,
      JsNum.lt, JsNum.gt, JsNum.isNaN]
  refine ⟨hoob, ?_, ?_, ?_, ?_⟩
  · simp only [animate, hstep]
    simp [preFrame_ballInHole, preFrame_level, hlvl, hfree, hval, resetBall,
      preFrame_resets]
  · simp only [animate, hstep]
    simp [preFrame_ballInHole, preFrame_level, hlvl, hfree, hval, resetBall,
      preFrame_ballStartPos]
  · simp only [animate, hstep]
    simp [preFrame_ballInHole, preFrame_level, hlvl, hfree, hval, resetBall]
  · intro p h1 h2 h3 h4 h5
    unfold outOfBounds
    rw [if_pos rfl]
    simp only [Vec3.toJs, JsNum.gt, JsNum.lt, Bool.or_eq_false_iff,
      decide_eq_false_iff_not, not_lt]
    exact ⟨⟨⟨⟨le_of_lt h2, le_of_lt h1⟩, le_of_lt h4⟩, le_of_lt h3⟩, h5⟩

/-- Witness for C7 on the concrete level-1 state. -/
theorem level1_bounds_classify_and_reset_witness :
    outOfBounds demoSqrt 1 (Vec3.toJs ⟨0, 0.3, 16⟩) = true
    ∧ (animate demoSqrt demoSin demoCos demoPi 0 (1/60) stepPastBound demoInit).resets
        = demoInit.resets + 1
    ∧ (animate demoSqrt demoSin demoCos demoPi 0 (1/60) stepPastBound demoInit).ballPos
        = demoInit.ballStartPos
    ∧ (animate demoSqrt demoSin demoCos demoPi 0 (1/60) stepPastBound demoInit).strokes
        = 0 := by
  obtain ⟨a, b, c, d, -⟩ := level1_bounds_classify_and_reset
    demoSqrt demoSin demoCos demoPi 0 (1/60) stepPastBound demoInit
    Vec3.zero Vec3.zero rfl rfl rfl
  exact ⟨a, b, c, d⟩

/-- C10.  While the ball is captured (`ballInHole`), the fell-through
check and the boundary checks never reset it — over any number of frames
the reset count stays fixed and the ball stays captured, whatever the
physics produces — and in a frame whose post-step height is below the
fall-depth threshold (`y < -0.8`) no centering or downward force is
applied and the stepped velocities pass through untouched: the ball
keeps falling under gravity with no reset until an external reset. -/
theorem captured_ball_never_reset_no_deep_forces (sqrtFn sinF cosF : ℚ → ℚ)
    (piV : ℚ) (st : EngineState) (hb : st.ballInHole = true) :
    (∀ fs : List FrameInput,
        (runFrames sqrtFn sinF cosF piV fs st).resets = st.resets
        ∧ (runFrames sqrtFn sinF cosF piV fs st).ballInHole = true)
    ∧ (∀ (nowMs dt : ℚ) (stepFn : ℚ → EngineState → Vec3 × Vec3 × Vec3)
        (p v av : Vec3),
        stepFn (min dt (1/30 : ℚ)) (preFrame sinF piV nowMs dt st) = (p, v, av) →
        p.y < -0.8 →
        (animate sqrtFn sinF cosF piV nowMs dt stepFn st).forceLog = st.forceLog
        ∧ (animate sqrtFn sinF cosF piV nowMs dt stepFn st).ballVel = v
        ∧ (animate sqrtFn sinF cosF piV nowMs dt stepFn st).ballAngVel = av) := by
  constructor
  · intro fs
    obtain ⟨h1, -, h3⟩ := runFrames_inHole sqrtFn sinF cosF piV fs st hb
    exact ⟨h3, h1⟩
  · intro nowMs dt stepFn p v av hstep hy
    have hb2 : (preFrame sinF piV nowMs dt st).ballInHole = true := by
      rw [preFrame_ballInHole, hb]
    simp only [animate, hstep]
    simp [hb2, validityResetReason_inHole, fallingUpdate_deep, le_of_lt hy,
      preFrame_forceLog]

/-- Witness for C10: a captured ball one unit deep, stepped further down,
with no reset, no force and untouched velocity. -/
theorem captured_ball_never_reset_no_deep_forces_witness :
    ((runFrames demoSqrt demoSin demoCos demoPi
        [⟨0, 1/60, stepDeepInHole⟩, ⟨16, 1/60, stepDeepInHole⟩] sunkState).resets
      = sunkState.resets)
    ∧ (animate demoSqrt demoSin demoCos demoPi 0 (1/60) stepDeepInHole sunkState).forceLog
        = sunkState.forceLog
    ∧ (animate demoSqrt demoSin demoCos demoPi 0 (1/60) stepDeepInHole sunkState).ballVel
        = ⟨0, -3, 0⟩ := by
  obtain ⟨h1, h2⟩ := captured_ball_never_reset_no_deep_forces
    demoSqrt demoSin demoCos demoPi sunkState rfl
  obtain ⟨g1, g2, -⟩ := h2 0 (1/60) stepDeepInHole ⟨0, -1, -12⟩ ⟨0, -3, 0⟩ Vec3.zero
    rfl (by norm_num)
  exact ⟨(h1 _).1, g1, g2⟩

/-- C8.  Every frame passes `world.step` exactly the measured delta
clamped to 1/30 s, so the stepped dt never exceeds 1/30 s. -/
theorem physics_step_dt_clamped (sqrtFn sinF cosF : ℚ → ℚ) (piV nowMs dt : ℚ)
    (stepFn : ℚ → EngineState → Vec3 × Vec3 × Vec3) (st : EngineState) :
    (animate sqrtFn sinF cosF piV nowMs dt stepFn st).stepLog
      = st.stepLog ++ [min dt (1/30 : ℚ)]
    ∧ min dt (1/30 : ℚ) ≤ (1/30 : ℚ) := by
  refine ⟨?_, min_le_right _ _⟩
  simp only [animate]
  split
  · simp [resetBall, preFrame_stepLog]
  · split <;> split <;>
      simp [captureCheck_stepLog, fallingUpdate_stepLog, preFrame_stepLog]

/-- C2, counterexample.  The claim "no impulse is ever applied while the
ball-capture state is not `Free`" is false on the code: in the concrete
trace `demoInit → mouse-down (aim accepted at rest) → frame that rolls
the ball into the hole (capture) → mouse-move → mouse-up`, the release
runs `shoot()` with `ballInHole = true` — nothing on the release path
checks the capture state — and one impulse is applied and a stroke
counted while the ball is captured. -/
theorem impulse_applied_while_captured_counterexample :
    c2State3.ballInHole = true
    ∧ c2State3.isAiming = true
    ∧ c2State4.impulseLog.length = c2State3.impulseLog.length + 1
    ∧ c2State4.strokes = c2State3.strokes + 1
    ∧ c2State4.ballInHole = true := by
  refine ⟨c2state3_ballInHole, c2state3_isAiming, ?_⟩
  have hcond : (0.05 : ℚ) < demoSqrt
      ((c2State3.aimCurrent.1 - c2State3.aimStart.1)
          * (c2State3.aimCurrent.1 - c2State3.aimStart.1)
        + (c2State3.aimCurrent.2 - c2State3.aimStart.2)
          * (c2State3.aimCurrent.2 - c2State3.aimStart.2)) := by
    rw [c2state3_aimStart, c2state3_aimCurrent]
    norm_num [demoSqrt]
  simp only [c2State4, onMouseUp, c2state3_isAiming, Bool.and_true, shoot, if_pos hcond]
  norm_num [c2state3_ballInHole]

/-- C2, amended.  For every accepted drag release exactly one impulse is
applied (none when the drag magnitude is within the threshold, and a
mouse-up without an active aim does nothing); aiming can only begin
while the ball's speed is below 0.5; but the release path itself
performs no capture-state check — `shoot` behaves identically whatever
`ballInHole` is — so an impulse can be applied while the capture state
is not `Free` if capture happens between aim start and release. -/
theorem one_impulse_per_release_no_capture_guard (sqrtFn : ℚ → ℚ) (camDir : Vec3)
    (st : EngineState) :
    (st.isAiming = true →
      (onMouseUp sqrtFn camDir 0 st).impulseLog.length
        = st.impulseLog.length
          + (if 0.05 < sqrtFn
                ((st.aimCurrent.1 - st.aimStart.1) * (st.aimCurrent.1 - st.aimStart.1)
                  + (st.aimCurrent.2 - st.aimStart.2) * (st.aimCurrent.2 - st.aimStart.2))
             then 1 else 0))
    ∧ (st.isAiming = false → onMouseUp sqrtFn camDir 0 st = st)
    ∧ (∀ b : Bool, (shoot sqrtFn camDir { st with ballInHole := b }).impulseLog.length
        = (shoot sqrtFn camDir st).impulseLog.length)
    ∧ (¬ sqrtFn st.ballVel.normSq < 0.5 →
        ∀ (rect : Rect) (cx cy : ℚ),
          (onMouseDown sqrtFn rect cx cy 0 st).isAiming = st.isAiming) := by
  refine ⟨fun h => ?_, fun h => ?_, fun b => ?_, fun h rect cx cy => ?_⟩
  · by_cases hc : (0.05 : ℚ) < sqrtFn
        ((st.aimCurrent.1 - st.aimStart.1) * (st.aimCurrent.1 - st.aimStart.1)
          + (st.aimCurrent.2 - st.aimStart.2) * (st.aimCurrent.2 - st.aimStart.2))
    · simp [onMouseUp, h, shoot, if_pos hc]
    · simp [onMouseUp, h, shoot, if_neg hc]
  · simp [onMouseUp, h]
  · by_cases hc : (0.05 : ℚ) < sqrtFn
        ((st.aimCurrent.1 - st.aimStart.1) * (st.aimCurrent.1 - st.aimStart.1)
          + (st.aimCurrent.2 - st.aimStart.2) * (st.aimCurrent.2 - st.aimStart.2))
    · simp [shoot, if_pos hc]
    · simp [shoot, if_neg hc]
  · simp [onMouseDown, h]

/-- Witness for the amended C2: an accepted release applies exactly one
impulse; a mouse-up with no active aim changes nothing. -/
theorem one_impulse_per_release_no_capture_guard_witness :
    (onMouseUp demoSqrt demoCamDir 0 aimingState).impulseLog.length
      = aimingState.impulseLog.length + 1
    ∧ onMouseUp demoSqrt demoCamDir 0 demoInit = demoInit := by
  obtain ⟨h1, -, -, -⟩ :=
    one_impulse_per_release_no_capture_guard demoSqrt demoCamDir aimingState
  obtain ⟨-, g2, -, -⟩ :=
    one_impulse_per_release_no_capture_guard demoSqrt demoCamDir demoInit
  refine ⟨?_, g2 rfl⟩
  rw [h1 rfl, if_pos (by norm_num [demoSqrt, aimingState, demoInit])]

/-- C3, counterexample.  The claim "any non-finite component (NaN or
Infinity) is detected and triggers a full ball reset" is false on the
code: the corruption check uses only `isNaN`, so a level-1 ball position
with `y = +Infinity` — non-finite — passes the corruption, floor and
bounds checks and no reset is triggered at all. -/
theorem infinite_position_escapes_checks_counterexample :
    (JsNum.posInf.isFinite = false)
    ∧ posCorrupted ⟨.fin 0, .posInf, .fin 0⟩ = false
    ∧ validityResetReason demoSqrt 1 false ⟨.fin 0, .posInf, .fin 0⟩ = none := by
  refine ⟨rfl, rfl, ?_⟩
  norm_num [validityResetReason, posCorrupted, outOfBounds, JsNum.lt, JsNum.gt,
    JsNum.isNaN]

/-- C3, amended.  A post-step position with a NaN component is always
detected by the validity check and classified as corruption, and every
frame whose validity check fires (for whatever reason) performs a full
ball reset instead of crashing — the frame function is total, so no
exception escapes; but an Infinity component is not detected as
corruption and triggers a reset only if it happens to violate the
floor/bounds comparisons. -/
theorem nan_detected_infinity_undetected (sqrtFn sinF cosF : ℚ → ℚ)
    (piV nowMs dt : ℚ)
    (stepFn : ℚ → EngineState → Vec3 × Vec3 × Vec3) (st : EngineState)
    (p v av : Vec3) (r : ResetReason)
    (hstep : stepFn (min dt (1/30 : ℚ)) (preFrame sinF piV nowMs dt st) = (p, v, av))
    (hval : validityResetReason sqrtFn st.level st.ballInHole p.toJs = some r) :
    (∀ (lvl : ℕ) (bih : Bool) (jp : JsVec3), posCorrupted jp = true →
        validityResetReason sqrtFn lvl bih jp = some .corrupted)
    ∧ (animate sqrtFn sinF cosF piV nowMs dt stepFn st).resets = st.resets + 1
    ∧ (animate sqrtFn sinF cosF piV nowMs dt stepFn st).ballPos = st.ballStartPos
    ∧ (animate sqrtFn sinF cosF piV nowMs dt stepFn st).ballVel = Vec3.zero := by
  refine ⟨fun lvl bih jp h => by simp [validityResetReason, h], ?_, ?_, ?_⟩
  all_goals
    simp only [animate, hstep]
    simp [preFrame_ballInHole, preFrame_level, hval, resetBall, preFrame_resets,
      preFrame_ballStartPos]

/-- Witness for the amended C3: the NaN case is detected, and the
concrete out-of-bounds frame on `demoInit` resets the ball. -/
theorem nan_detected_infinity_undetected_witness :
    validityResetReason demoSqrt 1 false ⟨.nan, .fin 0, .fin 0⟩
      = some .corrupted
    ∧ (animate demoSqrt demoSin demoCos demoPi 0 (1/60) stepPastBound demoInit).resets
        = demoInit.resets + 1 := by
  obtain ⟨h1, h2, -, -⟩ := nan_detected_infinity_undetected
    demoSqrt demoSin demoCos demoPi 0 (1/60) stepPastBound demoInit
    ⟨0, 0.3, 16⟩ Vec3.zero Vec3.zero .outside rfl
    (by norm_num [validityResetReason, posCorrupted, outOfBounds, Vec3.toJs,
      JsNum.lt, JsNum.gt, JsNum.isNaN, demoInit])
  exact ⟨h1 1 false ⟨.nan, .fin 0, .fin 0⟩ rfl, h2⟩

/-- C9, counterexample.  The claim "dispose releases every engine-owned
resource: all bodies removed, all listeners detached, no further
animation frames scheduled" is false on the code: after `dispose()` on
the level-1 state, the ball/ground/hole bodies (ids 0,1,2) are all still
in the physics world, the event listeners are still attached (the source
registers bound handlers and never calls `removeEventListener`), and a
running `animate` still schedules the next frame (nothing checks a
disposed flag).  The second engine version's `dispose` releases even
less. -/
theorem dispose_leaves_bodies_listeners_counterexample :
    (dispose demoInit).worldBodies = [0, 1, 2]
    ∧ (dispose demoInit).listenersAttached = true
    ∧ (disposeV2 demoInit).worldBodies = [0, 1, 2]
    ∧ (animate demoSqrt demoSin demoCos demoPi 0 (1/60) stepToHole
        (dispose demoInit)).rafScheduled = (dispose demoInit).rafScheduled + 1 :=
  ⟨rfl, rfl, rfl, animate_rafScheduled demoSqrt demoSin demoCos demoPi 0 (1/60)
    stepToHole (dispose demoInit)⟩

/-- C9, amended.  `dispose()` synchronously disposes the renderer,
removes exactly the moving-hazard bodies (and their meshes, plus the
background trees) and is safe to call multiple times — the second call
changes nothing; it does not remove the remaining bodies, does not
detach event listeners, and installs nothing that stops further
animation-frame scheduling. -/
theorem dispose_partial_release_idempotent (st : EngineState) :
    (dispose st).rendererDisposed = true
    ∧ (dispose st).movingBlocks = []
    ∧ (dispose st).treeIds = []
    ∧ (dispose st).worldBodies
        = st.worldBodies.filter
            (fun b => !(st.movingBlocks.map (fun mb => mb.bodyId)).contains b)
    ∧ (dispose st).listenersAttached = st.listenersAttached
    ∧ dispose (dispose st) = dispose st := by
  refine ⟨rfl, rfl, rfl, rfl, rfl, ?_⟩
  simp [dispose]

end GolfGame
